import Mathlib

/-!
Verification of the steamgriddb.com artwork grabber (`griddb.py`).

The Python source is shallowly embedded below: pure string manipulation
becomes Lean functions on `String`; the network and the filesystem become an
explicit trace of `Event`s produced by running the pipeline against an `Env`
that supplies the JSON bodies the remote API would return; exceptions become
`Except String`.
-/

/-- A Python value that can sit in the `release_date` field of a game record:
the API delivers a unix timestamp (int); `_print_data` overwrites the field
with a formatted string. -/
inductive GVal where
  | int (n : Int)
  | str (s : String)
deriving DecidableEq

/-- A Python value that can sit in the `types` field of a game record: the API
delivers a list of store-name strings; `_print_data` overwrites the field with
one comma-joined string. -/
inductive TVal where
  | strs (xs : List String)
  | str (s : String)
deriving DecidableEq

/-- A game record as returned by the search endpoints (`griddb.py` consumes
the keys `id`, `name`, `release_date` (optional), `types`, `verified`). -/
structure GameRecord where
  id : Int
  name : String
  release_date : Option GVal
  types : TVal
  verified : Bool
deriving DecidableEq

/-- An image record as returned by the artwork endpoints (`griddb.py` consumes
the keys `id`, `score`, `nsfw`, `url`, `thumb`). -/
structure ImageRecord where
  id : Int
  score : Int
  nsfw : Bool
  url : String
  thumb : String
deriving DecidableEq

/-- The `data` field of a search response: the API may return a single object
or a list (`griddb.py` line 148 checks `type(data['data']) is list`). -/
inductive OneOrMany where
  | one (g : GameRecord)
  | many (gs : List GameRecord)
deriving DecidableEq

/-- A search-endpoint JSON body: `success` flag plus `data`. -/
structure SearchResp where
  success : Bool
  data : OneOrMany
deriving DecidableEq

/-- The remote side of one run: the JSON bodies the three GET endpoints would
deliver (all requests are assumed to come back with status 200; the claims
under verification do not involve non-2xx responses). -/
structure Env where
  searchResp : SearchResp
  idResp : SearchResp
  imagesData : List ImageRecord
deriving DecidableEq

/-- An observable side effect of a run: an HTTP GET (with the query parameters
actually sent on the wire) or a file write. -/
inductive Event where
  | get (url : String) (params : List (String × String))
  | write (file : String)
deriving DecidableEq

/-- Result of running `_download_images`: the ordered side-effect trace and
either normal return or a raised exception (message). -/
structure RunResult where
  events : List Event
  outcome : Except String Unit

/-- The `Artwork` enum of `griddb.py` (note the source spells the HERO value
`hereos`). -/
inductive Artwork where
  | GRID
  | HERO
  | LOGO
  | ICON
deriving DecidableEq

/-- The enum member values (`Artwork.GRID = 'grids'` and so on, verbatim from
the source). -/
def Artwork.value : Artwork → String
  | Artwork.GRID => ("grids")
  | Artwork.HERO => ("hereos")
  | Artwork.LOGO => ("logos")
  | Artwork.ICON => ("icons")

namespace Endpoint

/-- `Endpoint._top` from the source. -/
def top : String := ("https://www.steamgriddb.com/api/v2/")

/-- `Endpoint.artwork_path`. -/
def artwork_path (game_id : Int) (ty : Artwork) : String :=
  top ++ ty.value ++ ("/game/") ++ toString game_id

/-- `Endpoint.search_path`. -/
def search_path (query : String) : String :=
  top ++ ("search/autocomplete/") ++ query

/-- `Endpoint.search_path_id`. -/
def search_path_id (game_id : Int) : String :=
  top ++ ("games/id/") ++ toString game_id

end Endpoint

/-- The UTF-8 encoding of one code point, as a list of byte values. -/
def utf8Bytes (c : Char) : List Nat :=
  let n := c.toNat
  if n < 128 then [n]
  else if n < 2048 then [192 + n / 64, 128 + n % 64]
  else if n < 65536 then [224 + n / 4096, 128 + (n / 64) % 64, 128 + n % 64]
  else [240 + n / 262144, 128 + (n / 4096) % 64, 128 + (n / 64) % 64, 128 + n % 64]

/-- Bytes `urllib.parse.quote` leaves unescaped with the default `safe` of
`/`: ASCII letters, digits, and `_ . - ~ /`. -/
def quoteSafeByte (b : Nat) : Bool :=
  (65 ≤ b && b ≤ 90) || (97 ≤ b && b ≤ 122) || (48 ≤ b && b ≤ 57) ||
    b == 95 || b == 46 || b == 45 || b == 126 || b == 47

/-- One uppercase hex digit. -/
def hexDigit (n : Nat) : String :=
  if n < 10 then String.singleton (Char.ofNat (48 + n))
  else String.singleton (Char.ofNat (55 + n))

/-- `urllib.parse.quote` applied to one byte. -/
def quoteByte (b : Nat) : String :=
  if quoteSafeByte b then String.singleton (Char.ofNat b)
  else ("%") ++ hexDigit (b / 16) ++ hexDigit (b % 16)

/-- `urllib.parse.quote` with the default `safe` argument. -/
def pyQuote (s : String) : String :=
  String.join ((s.data.flatMap utf8Bytes).map quoteByte)

/-- ASCII word characters: the ASCII fragment of the Python regex class
`\w` (letters, digits, underscore). -/
def asciiWord (c : Char) : Bool :=
  (65 ≤ c.toNat && c.toNat ≤ 90) || (97 ≤ c.toNat && c.toNat ≤ 122) ||
    (48 ≤ c.toNat && c.toNat ≤ 57) || c.toNat == 95

/-- Non-ASCII Latin-1 word characters: Unicode alphanumerics with code point
in 128..255 (ordinal indicators, micro sign, superscripts, vulgar fractions,
and the letters C0..FF except multiplication and division signs). Python's
`\w` is Unicode-aware; this table is exact for code points up to 255, and
every theorem below evaluates the slug only on such inputs. -/
def latinExtra (n : Nat) : Bool :=
  n == 170 || n == 178 || n == 179 || n == 181 || n == 185 || n == 186 ||
    n == 188 || n == 189 || n == 190 ||
    (192 ≤ n && n ≤ 255 && n != 215 && n != 247)

/-- Python regex `\w` (for code points up to 255, see `latinExtra`). -/
def pyIsWord (c : Char) : Bool :=
  asciiWord c || latinExtra c.toNat

/-- A character NOT matched by the substitution pattern `[^\w\-_]+` of
`_create_directory` line 84, i.e. a character the sanitizer keeps. -/
def pyAllowed (c : Char) : Bool :=
  pyIsWord c || c.toNat == 45

/-- The run-collapsing core of `re.sub` with a `[...]+` pattern: the flag
records whether the previous character was part of a run currently being
replaced (in which case no further underscore is emitted for it). -/
def slugAux : Bool → List Char → List Char
  | _, [] => []
  | inRun, c :: cs =>
    if pyAllowed c then c :: slugAux false cs
    else if inRun then slugAux true cs
    else '_' :: slugAux true cs

/-- `re.sub` of the pattern `[^\w\-_]+` by `_` (`_create_directory` line 84):
every maximal run of characters outside `\w` and `-` becomes one `_`. -/
def slugify (s : String) : String :=
  String.mk (slugAux false s.data)

/-- `_create_directory` (the returned directory string; the `os.makedirs`
side effect carries no information beyond the string). `game_id` arrives as
the integer the callers pass. -/
def create_directory (game_id : Int) (ty : Artwork) (title : Option String) :
    String :=
  match title with
  | none =>
    ("images/") ++ toString game_id ++ ("/") ++ ty.value ++ ("/")
  | some t =>
    ("images/") ++ slugify t ++ ("-") ++ toString game_id ++ ("/") ++
      ty.value ++ ("/")

/-- Split a character list at every `/`. -/
def splitSlash : List Char → List (List Char)
  | [] => [[]]
  | c :: cs =>
    match splitSlash cs with
    | [] => if c = '/' then [[], []] else [[c]]
    | p :: ps => if c = '/' then [] :: p :: ps else (c :: p) :: ps

/-- The `name` of `pathlib.Path` applied to a string: the last component
after splitting on `/`, with empty and `.` components dropped. -/
def pathName (s : String) : String :=
  match ((splitSlash s.data).filter
      (fun p => p ≠ [] && p ≠ ['.'])).getLast? with
  | some p => String.mk p
  | none => ("")

/-- The position just after the last `.` of a character list, or 0 when there
is none (`1 + rfind` in the pathlib suffix code). -/
def lastDotEnd : List Char → Nat
  | [] => 0
  | c :: cs =>
    let r := lastDotEnd cs
    if r ≠ 0 then r + 1
    else if c = '.' then 1
    else 0

/-- `pathlib.Path(...).suffix`: the extension of the final path component,
empty unless the last dot is at an interior position. -/
def pathSuffix (s : String) : String :=
  let name := (pathName s).data
  let i := lastDotEnd name
  if 1 < i ∧ i < name.length then String.mk (name.drop (i - 1)) else ("")

/-- Year and month of a day count relative to 1970-01-01 (the civil-calendar
algorithm used by every unix date library). -/
def civilFromDays (days : Int) : Int × Nat :=
  let z := days + 719468
  let era := (if 0 ≤ z then z else z - 146096).tdiv 146097
  let doe := (z - era * 146097).toNat
  let yoe := (doe - doe / 1460 + doe / 36524 - doe / 146096) / 365
  let y := (yoe : Int) + era * 400
  let doy := doe - (365 * yoe + yoe / 4 - yoe / 100)
  let mp := (5 * doy + 2) / 153
  let m := if mp < 10 then mp + 3 else mp - 9
  ((if m ≤ 2 then y + 1 else y), m)

/-- `datetime.utcfromtimestamp(ts).strftime('%m-%Y')`: zero-padded month,
dash, year. -/
def formatDate (ts : Int) : String :=
  let ym := civilFromDays (Int.fdiv ts 86400)
  (if ym.2 < 10 then ("0") ++ toString ym.2 else toString ym.2) ++ ("-") ++
    toString ym.1

/-- How Python `format` renders a bool. -/
def pyBoolStr (b : Bool) : String :=
  if b then ("True") else ("False")

/-- Python `int()` applied to a release-date value: an int passes through, a
string is parsed as a decimal literal (the only string shapes this program
can reach), anything unparsable raises. -/
def gvalToInt : GVal → Option Int
  | GVal.int n => some n
  | GVal.str s => s.toInt?

/-- `', '.join(data['types'])`: joining a list of strings, or (Python being
Python) joining the characters when the field already holds a string. -/
def joinStores : TVal → String
  | TVal.strs xs => String.intercalate (", ") xs
  | TVal.str s => String.intercalate (", ") (s.data.map String.singleton)

/-- `_print_data`: formats a record for display and, in doing so, overwrites
the `release_date` and `types` entries of the dict it was given. Returns the
record as it is left after the call together with the printed text; `none`
models the `ValueError` that `int()` raises on an unparsable string. -/
def print_data (g : GameRecord) : Option (GameRecord × String) :=
  let dateE : Option String :=
    match g.release_date with
    | none => some (".")
    | some v =>
      match gvalToInt v with
      | some n => some (formatDate n)
      | none => none
  match dateE with
  | none => none
  | some date =>
    let stores := joinStores g.types
    let g2 : GameRecord :=
      ⟨g.id, g.name, some (GVal.str date), TVal.str stores, g.verified⟩
    some (g2,
      ("    Title: ") ++ g.name ++
      ("\n    Released: ") ++ date ++
      ("\n    ID: ") ++ toString g.id ++
      ("\n    Stores: ") ++ stores ++
      ("\n    Verified: ") ++ pyBoolStr g.verified ++ ("    "))

/-- `data['data'] if type(data['data']) is list else [data['data']]`
(`_auto_search` line 148). -/
def normalizeData : OneOrMany → List GameRecord
  | OneOrMany.one g => [g]
  | OneOrMany.many gs => gs

/-- `_auto_search`: the GET trace plus either a raised `ScriptError` or the
Python return value, which is a list when `success` is true and the bare
`None` of falling off the function when it is false. -/
def auto_search (env : Env) (query : Option (List String))
    (game_id : Option Int) :
    List Event × Except String (Option (List GameRecord)) :=
  match game_id with
  | some g =>
    let data := env.idResp
    ([Event.get (Endpoint.search_path_id g) []],
      Except.ok (if data.success then some (normalizeData data.data) else none))
  | none =>
    match query with
    | none => ([], Except.error ("Please specify a search query or id"))
    | some [] => ([], Except.error ("Please specify a search query or id"))
    | some q =>
      let joined := String.intercalate (" ") q
      let path := Endpoint.search_path (pyQuote joined)
      let data := env.searchResp
      ([Event.get path []],
        Except.ok
          (if data.success then some (normalizeData data.data) else none))

/-- The membership test `types in ('static', 'animated', 'any')` of
`_download_images` line 175. -/
def validStyle (t : String) : Bool :=
  t == ("static") || t == ("animated") || t == ("any")

/-- The membership test `nsfw in ('true', 'false', 'any')` of
`_download_images` line 181. -/
def validNsfw (t : String) : Bool :=
  t == ("true") || t == ("false") || t == ("any")

/-- The query parameters `requests` actually serializes from the payload dict
`{'nsfw': nsfw, 'types': types}`: entries whose value is `None` are not sent
(source comment, line 187). -/
def sentParams (nsfw types : Option String) : List (String × String) :=
  (match nsfw with
   | some v => [(("nsfw"), v)]
   | none => []) ++
  (match types with
   | some v => [(("types"), v)]
   | none => [])

/-- The wire parameters of the artwork request, after the `'any' -> None`
conversions of `_download_images` lines 178-185. -/
def artworkParams (nsfw types : String) : List (String × String) :=
  sentParams (if nsfw == ("any") then none else some nsfw)
    (if types == ("any") then none else some types)

/-- Python `list[:count]` with an optional bound: `None` keeps everything, a
non-negative bound keeps the first `count` elements, a negative bound drops
the last `-count` elements. -/
def pySliceTo (count : Option Int) (xs : List α) : List α :=
  match count with
  | none => xs
  | some n =>
    if 0 ≤ n then xs.take n.toNat else xs.take (xs.length - (-n).toNat)

/-- The file name built at `_download_images` lines 201-207:
`directory + '{game_id}-{score}-{id}-{nsfw}{ext}'` with the extension taken
from `image[link]`, where `link` honours the thumb flag. -/
def imageFileName (directory : String) (game_id : Int) (thumb : Bool)
    (img : ImageRecord) : String :=
  let image_url := if thumb then img.thumb else img.url
  directory ++ toString game_id ++ ("-") ++ toString img.score ++ ("-") ++
    toString img.id ++ ("-") ++ pyBoolStr img.nsfw ++ pathSuffix image_url

/-- The filter-validation and download phase of `_download_images` (lines
174-212), entered once a game id (and possibly a title) is known. Each image
produces a GET of its `thumb` URL (line 209 fetches `image['thumb']`
unconditionally) followed by the file write. -/
def fetchPhase (env : Env) (artwork : Artwork) (gid : Int)
    (title : Option String) (thumb : Bool) (nsfw types : String)
    (count : Option Int) : RunResult :=
  if validStyle types = false then
    ⟨[], Except.error (("Unsupported style filter: ") ++ types ++
      ("(supported values \"static\", \"animated\", \"any\"."))⟩
  else if validNsfw nsfw = false then
    ⟨[], Except.error (("Unsupported nsfw filter: ") ++ nsfw ++
      ("(supported values \"true\", \"false\", \"any\"."))⟩
  else
    let ev1 : Event :=
      Event.get (Endpoint.artwork_path gid artwork) (artworkParams nsfw types)
    let images := env.imagesData
    if images.length ≤ 0 then ⟨[ev1], Except.ok ()⟩
    else
      let directory := create_directory gid artwork title
      let evs := (pySliceTo count images).flatMap fun img =>
        [Event.get img.thumb [],
         Event.write (imageFileName directory gid thumb img)]
      ⟨ev1 :: evs, Except.ok ()⟩

/-- The game-resolution phase of `_download_images` (lines 163-172): an
explicit id is used as given with no title; otherwise the first auto-search
hit is printed (mutating it) and supplies id and title. The Python
`TypeError` of subscripting `None`, the `IndexError` of an empty hit list and
the `ValueError` out of `_print_data` surface as raised exceptions. -/
def resolveOutcome :
    Except String (Option (List GameRecord)) →
      Except String (Int × Option String)
  | Except.error e => Except.error e
  | Except.ok none =>
    Except.error ("TypeError: NoneType object is not subscriptable")
  | Except.ok (some []) =>
    Except.error ("IndexError: list index out of range")
  | Except.ok (some (g :: _)) =>
    match print_data g with
    | none => Except.error ("ValueError: invalid literal for int")
    | some (g2, _) => Except.ok (g2.id, some g2.name)

def resolveGame (env : Env) (query : Option (List String))
    (game_id : Option Int) :
    List Event × Except String (Int × Option String) :=
  match game_id with
  | some gid => ([], Except.ok (gid, none))
  | none =>
    let sr := auto_search env query none
    (sr.1, resolveOutcome sr.2)

/-- `_download_images`: resolve the game, validate the filters, fetch the
artwork list, and download the selected records. -/
def download_images (env : Env) (artwork : Artwork)
    (query : Option (List String)) (game_id : Option Int) (thumb : Bool)
    (nsfw types : String) (count : Option Int) : RunResult :=
  match resolveGame env query game_id with
  | (evs0, Except.error e) => ⟨evs0, Except.error e⟩
  | (evs0, Except.ok (gid, title)) =>
    let res := fetchPhase env artwork gid title thumb nsfw types count
    ⟨evs0 ++ res.events, res.outcome⟩

/-- The files written during a run, in order. -/
def writtenFiles : List Event → List String
  | [] => []
  | Event.write f :: es => f :: writtenFiles es
  | Event.get _ _ :: es => writtenFiles es

/-- Whether an `Except` is a raised exception. -/
def isErr : Except String Unit → Bool
  | Except.error _ => true
  | Except.ok _ => false

/-- Splitting the written-file projection over a trace concatenation. -/
theorem writtenFiles_append (a b : List Event) :
    writtenFiles (a ++ b) = writtenFiles a ++ writtenFiles b := by
  induction a with
  | nil => rfl
  | cons e es ih => cases e <;> simp [writtenFiles, ih]

/-- The files written by the per-image loop are exactly the names it builds,
in record order. -/
theorem writtenFiles_download_pairs (xs : List ImageRecord)
    (g f : ImageRecord → String) :
    writtenFiles (xs.flatMap fun img =>
      [Event.get (g img) [], Event.write (f img)]) = xs.map f := by
  induction xs with
  | nil => rfl
  | cons x xs ih =>
    rw [List.flatMap_cons, writtenFiles_append, ih]
    rfl

/-- Claim C1: the claim states the image bytes are fetched from the
full-resolution `url` when the thumb flag is off. The code disagrees:
`_download_images` line 209 issues the GET against `image['thumb']`
unconditionally (the flag only picks which URL names the file extension).
Running a grid download with the flag off, the trace fetches the thumb URL
and never the full-resolution URL, while the written file even carries the
full-resolution `.png` extension. -/
theorem download_fetches_thumb_url_even_when_flag_off :
    (download_images
      ⟨⟨true, OneOrMany.many []⟩, ⟨true, OneOrMany.many []⟩,
        [⟨77, 95, false, ("https://cdn.example/full/image.png"),
          ("https://cdn.example/thumb/image.jpg")⟩]⟩
      Artwork.GRID none (some 1234) false ("false") ("any") (some 5)).events =
    [Event.get ("https://www.steamgriddb.com/api/v2/grids/game/1234")
        [(("nsfw"), ("false"))],
     Event.get ("https://cdn.example/thumb/image.jpg") [],
     Event.write ("images/1234/grids/1234-95-77-False.png")] := by
  rfl

/-- Claim C2: the claim states a `success: false` response makes the search
resolver return an empty sequence. The code disagrees: `_auto_search` only
returns inside `if data['success']:` and otherwise falls off the end,
returning the Python `None` (contradicting its own comment on line 146,
`Must return a list, even if one element`); `len(results)` in the caller
then raises `TypeError`. -/
theorem search_success_false_returns_none :
    (auto_search ⟨⟨false, OneOrMany.many []⟩, ⟨false, OneOrMany.many []⟩, []⟩
      (some [("doom")]) none).2 = Except.ok none := by
  rfl

/-- Claim C3: the claim states the hero category maps to the collection path
`heroes`. The code disagrees: the `Artwork.HERO` enum value is the misspelled
`hereos`, so every hero fetch requests the collection `hereos`. -/
theorem hero_collection_path_misspelled :
    Endpoint.artwork_path 2254 Artwork.HERO =
      ("https://www.steamgriddb.com/api/v2/hereos/game/2254") ∧
    Endpoint.artwork_path 2254 Artwork.HERO ≠
      ("https://www.steamgriddb.com/api/v2/heroes/game/2254") := by
  constructor
  · rfl
  · decide

/-- Claim C8: called with an empty term sequence (and no explicit id), the
search resolver raises the usage error immediately, with an empty network
trace, whatever the remote side would have answered. -/
theorem resolve_empty_query_usage_error :
    ∀ env : Env, auto_search env (some []) none =
      ([], Except.error ("Please specify a search query or id")) :=
  fun _ => rfl

/-- Claim C4: with a game id in hand, an invalid style or nsfw enumerant
makes the download pipeline raise before anything touches the network: the
outcome is the usage error and the side-effect trace is empty, whatever the
remote side holds. -/
theorem fetch_invalid_filter_fails_before_network :
    ∀ (env : Env) (a : Artwork) (q : Option (List String)) (g : Int)
      (thumb : Bool) (nsfw types : String) (count : Option Int),
    validStyle types = false ∨ validNsfw nsfw = false →
    (download_images env a q (some g) thumb nsfw types count).events = [] ∧
    isErr (download_images env a q (some g) thumb nsfw types count).outcome
      = true := by
  intro env a q g thumb nsfw types count h
  rcases h with h | h
  · simp [download_images, resolveGame, fetchPhase, h, isErr]
  · by_cases hs : validStyle types = false
    · simp [download_images, resolveGame, fetchPhase, hs, isErr]
    · simp [download_images, resolveGame, fetchPhase, hs, h, isErr]

/-- Witness for claim C4 at the invalid style value `loud`. -/
theorem fetch_invalid_filter_fails_before_network_witness :
    (download_images ⟨⟨true, OneOrMany.many []⟩, ⟨true, OneOrMany.many []⟩, []⟩
      Artwork.GRID none (some 1) false ("false") ("loud") none).events = [] ∧
    isErr (download_images
      ⟨⟨true, OneOrMany.many []⟩, ⟨true, OneOrMany.many []⟩, []⟩
      Artwork.GRID none (some 1) false ("false") ("loud") none).outcome
      = true :=
  fetch_invalid_filter_fails_before_network
    ⟨⟨true, OneOrMany.many []⟩, ⟨true, OneOrMany.many []⟩, []⟩
    Artwork.GRID none 1 false ("false") ("loud") none (Or.inl (by decide))

/-- Every GET issued by the search resolver carries no query parameters. -/
theorem auto_search_events_no_params :
    ∀ (env : Env) (q : Option (List String)) (gid : Option Int) (e : Event),
    e ∈ (auto_search env q gid).1 → ∃ u, e = Event.get u [] := by
  intro env q gid e he
  cases gid with
  | some g =>
    simp [auto_search] at he
    exact ⟨_, he⟩
  | none =>
    cases q with
    | none => simp [auto_search] at he
    | some l =>
      cases l with
      | nil => simp [auto_search] at he
      | cons c cs =>
        simp [auto_search] at he
        exact ⟨_, he⟩

/-- The game-resolution phase shares its trace with the search resolver. -/
theorem resolveGame_events_no_params :
    ∀ (env : Env) (q : Option (List String)) (gid : Option Int) (e : Event),
    e ∈ (resolveGame env q gid).1 → ∃ u, e = Event.get u [] := by
  intro env q gid e he
  cases gid with
  | some g => simp [resolveGame] at he
  | none => exact auto_search_events_no_params env q none e he

/-- The parameters the artwork request actually carries never hold the value
`any`, and the keys whose filter is `any` are absent. -/
theorem artworkParams_spec (nsfw types : String) :
    (∀ k, (k, ("any")) ∉ artworkParams nsfw types) ∧
    (nsfw = ("any") → ∀ v, ((("nsfw") : String), v) ∉ artworkParams nsfw types) ∧
    (types = ("any") → ∀ v, ((("types") : String), v) ∉ artworkParams nsfw types) := by
  by_cases hn : nsfw = ("any") <;> by_cases ht : types = ("any") <;>
    simp [artworkParams, sentParams, hn, ht] <;> tauto

/-- Every event of the fetch-and-download phase is the artwork request, a
parameterless GET, or a file write. -/
theorem fetchPhase_events_shape :
    ∀ (env : Env) (a : Artwork) (gid : Int) (title : Option String)
      (thumb : Bool) (nsfw types : String) (count : Option Int) (e : Event),
    e ∈ (fetchPhase env a gid title thumb nsfw types count).events →
    e = Event.get (Endpoint.artwork_path gid a) (artworkParams nsfw types) ∨
    (∃ u, e = Event.get u []) ∨ (∃ f, e = Event.write f) := by
  intro env a gid title thumb nsfw types count e he
  unfold fetchPhase at he
  by_cases hs : validStyle types = false
  · simp [hs] at he
  · by_cases hn : validNsfw nsfw = false
    · simp [hs, hn] at he
    · by_cases hl : env.imagesData.length ≤ 0
      · simp [hs, hn, hl] at he
        left
        exact he
      · simp [hs, hn, hl, List.mem_flatMap] at he
        rcases he with he | ⟨img, _, he | he⟩
        · left
          exact he
        · right; left
          exact ⟨_, he⟩
        · right; right
          exact ⟨_, he⟩

/-- The trace of a full run splits into the resolution trace followed by the
fetch-phase trace of the resolved id and title. -/
theorem download_images_events (env : Env) (a : Artwork)
    (q : Option (List String)) (gid : Option Int) (thumb : Bool)
    (nsfw types : String) (count : Option Int) :
    (download_images env a q gid thumb nsfw types count).events =
      (resolveGame env q gid).1 ++
      (match (resolveGame env q gid).2 with
       | Except.error _ => []
       | Except.ok p =>
         (fetchPhase env a p.1 p.2 thumb nsfw types count).events) := by
  rcases hr : resolveGame env q gid with ⟨evs0, r⟩
  cases r with
  | error e => simp [download_images, hr]
  | ok p => simp [download_images, hr]

/-- Claim C6: in every GET the run issues, no query parameter carries the
literal value `any`, and when the nsfw or style filter is `any` the
corresponding key is absent from the parameters. -/
theorem any_filter_never_sent :
    ∀ (env : Env) (a : Artwork) (q : Option (List String))
      (gid : Option Int) (thumb : Bool) (nsfw types : String)
      (count : Option Int) (url : String) (ps : List (String × String)),
    Event.get url ps ∈
      (download_images env a q gid thumb nsfw types count).events →
    (∀ k, (k, ("any")) ∉ ps) ∧
    (nsfw = ("any") → ∀ v, ((("nsfw") : String), v) ∉ ps) ∧
    (types = ("any") → ∀ v, ((("types") : String), v) ∉ ps) := by
  intro env a q gid thumb nsfw types count url ps hmem
  rw [download_images_events] at hmem
  rcases List.mem_append.1 hmem with h | h
  · rcases resolveGame_events_no_params env q gid _ h with ⟨u, hu⟩
    injection hu with hu1 hu2
    subst hu2
    simp
  · rcases hr : (resolveGame env q gid).2 with e | p
    · rw [hr] at h
      simp at h
    · rw [hr] at h
      rcases fetchPhase_events_shape env a p.1 p.2 thumb nsfw types count _ h
        with h1 | ⟨u, h1⟩ | ⟨f, h1⟩
      · injection h1 with hu1 hu2
        subst hu2
        exact artworkParams_spec nsfw types
      · injection h1 with hu1 hu2
        subst hu2
        simp
      · exact absurd h1 (by simp)

/-- Witness for claim C6: a run whose nsfw filter is `any` and style filter
is `static` sends exactly the parameter list holding only the types entry. -/
theorem any_filter_never_sent_witness :
    (∀ k, (k, ("any")) ∉ [((("types") : String), (("static") : String))]) ∧
    (("any") = ("any") →
      ∀ v, ((("nsfw") : String), v) ∉
        [((("types") : String), (("static") : String))]) ∧
    (("static") = ("any") →
      ∀ v, ((("types") : String), v) ∉
        [((("types") : String), (("static") : String))]) :=
  any_filter_never_sent
    ⟨⟨true, OneOrMany.many []⟩, ⟨true, OneOrMany.many []⟩, []⟩
    Artwork.GRID none (some 7) false ("any") ("static") none
    ("https://www.steamgriddb.com/api/v2/grids/game/7")
    [((("types") : String), (("static") : String))] (by decide)

/-- Slicing with a natural bound keeps the first records. -/
theorem pySliceTo_ofNat (n : Nat) (xs : List α) :
    pySliceTo (some ((n : Nat) : Int)) xs = xs.take n := by
  have h1 : (0 : Int) ≤ ((n : Nat) : Int) := Int.natCast_nonneg n
  have h2 : (((n : Nat) : Int)).toNat = n := Int.toNat_natCast n
  simp [pySliceTo, h1, h2]

/-- Slicing with a negative bound keeps all but the last records. -/
theorem pySliceTo_neg (m : Nat) (hm : 0 < m) (xs : List α) :
    pySliceTo (some (-((m : Nat) : Int))) xs = xs.take (xs.length - m) := by
  have h1 : ¬ ((0 : Int) ≤ -((m : Nat) : Int)) := by omega
  have h2 : (- -((m : Nat) : Int)).toNat = m := by omega
  simp [pySliceTo, h1, h2]

/-- With an explicit id the run is exactly the fetch-and-download phase with
no title. -/
theorem download_images_with_id (env : Env) (a : Artwork)
    (q : Option (List String)) (gid : Int) (thumb : Bool)
    (nsfw types : String) (count : Option Int) :
    download_images env a q (some gid) thumb nsfw types count =
      fetchPhase env a gid none thumb nsfw types count := by
  simp [download_images, resolveGame]

/-- With valid filters the fetch-and-download phase returns normally. -/
theorem fetchPhase_ok (env : Env) (a : Artwork) (gid : Int)
    (title : Option String) (thumb : Bool) (nsfw types : String)
    (count : Option Int) (hs : validStyle types = true)
    (hn : validNsfw nsfw = true) :
    (fetchPhase env a gid title thumb nsfw types count).outcome =
      Except.ok () := by
  unfold fetchPhase
  by_cases hl : env.imagesData.length ≤ 0 <;> simp [hs, hn, hl]

/-- With valid filters the files the fetch-and-download phase writes are the
names built for the sliced record list, in order. -/
theorem fetchPhase_written (env : Env) (a : Artwork) (gid : Int)
    (title : Option String) (thumb : Bool) (nsfw types : String)
    (count : Option Int) (hs : validStyle types = true)
    (hn : validNsfw nsfw = true) :
    writtenFiles (fetchPhase env a gid title thumb nsfw types count).events =
      (pySliceTo count env.imagesData).map
        (imageFileName (create_directory gid a title) gid thumb) := by
  unfold fetchPhase
  by_cases hl : env.imagesData.length ≤ 0
  · have hnil : env.imagesData = [] := List.eq_nil_of_length_eq_zero (by omega)
    simp [hs, hn, hl, writtenFiles, hnil, pySliceTo]
    cases count with
    | none => simp
    | some n => cases (inferInstance : Decidable ((0 : Int) ≤ n)) with
      | isTrue h => simp [h]
      | isFalse h => simp [h]
  · simp [hs, hn, hl, writtenFiles, writtenFiles_download_pairs]

/-- Claim C7: with a known id (hence no title) and valid filters, a run with
non-negative limit n writes exactly the names of the first n records, in
server order, under the directory built from the game id and the category
collection name, so min n (number of records) files in all; a limit of none writes every record. Each name is the
directory followed by id, score, image id and nsfw flag joined with dashes
and the extension of the flag-selected source URL (see `imageFileName`). -/
theorem downloader_writes_first_limit :
    ∀ (env : Env) (a : Artwork) (q : Option (List String)) (gid : Int)
      (thumb : Bool) (nsfw types : String) (n : Nat),
    validStyle types = true → validNsfw nsfw = true →
    (writtenFiles (download_images env a q (some gid) thumb nsfw types
        (some ((n : Nat) : Int))).events =
      (env.imagesData.take n).map
        (imageFileName
          (("images/") ++ toString gid ++ ("/") ++ a.value ++ ("/"))
          gid thumb)) ∧
    ((writtenFiles (download_images env a q (some gid) thumb nsfw types
        (some ((n : Nat) : Int))).events).length =
      min n env.imagesData.length) ∧
    (writtenFiles (download_images env a q (some gid) thumb nsfw types
        none).events =
      env.imagesData.map
        (imageFileName
          (("images/") ++ toString gid ++ ("/") ++ a.value ++ ("/"))
          gid thumb)) := by
  intro env a q gid thumb nsfw types n hs hn
  have h1 := fetchPhase_written env a gid none thumb nsfw types
    (some ((n : Nat) : Int)) hs hn
  have h2 := fetchPhase_written env a gid none thumb nsfw types none hs hn
  rw [pySliceTo_ofNat] at h1
  refine ⟨?_, ?_, ?_⟩
  · rw [download_images_with_id, h1]
    rfl
  · rw [download_images_with_id, h1]
    simp [List.length_map, List.length_take]
  · rw [download_images_with_id, h2]
    rfl

/-- Witness for claim C7: two of three records, known id 1234, grid
category. -/
theorem downloader_writes_first_limit_witness :
    (writtenFiles (download_images
        ⟨⟨true, OneOrMany.many []⟩, ⟨true, OneOrMany.many []⟩,
          [⟨11, 99, false, ("https://cdn.example/a.png"), ("https://cdn.example/ta.jpg")⟩,
           ⟨12, 98, true, ("https://cdn.example/b.png"), ("https://cdn.example/tb.jpg")⟩,
           ⟨13, 97, false, ("https://cdn.example/c.png"), ("https://cdn.example/tc.jpg")⟩]⟩
        Artwork.GRID none (some 1234) false ("false") ("any")
        (some (((2 : Nat) : Nat) : Int))).events =
      (([⟨11, 99, false, ("https://cdn.example/a.png"), ("https://cdn.example/ta.jpg")⟩,
         ⟨12, 98, true, ("https://cdn.example/b.png"), ("https://cdn.example/tb.jpg")⟩,
         ⟨13, 97, false, ("https://cdn.example/c.png"), ("https://cdn.example/tc.jpg")⟩] :
          List ImageRecord).take 2).map
        (imageFileName
          (("images/") ++ toString (1234 : Int) ++ ("/") ++ Artwork.GRID.value ++ ("/"))
          1234 false)) ∧
    ((writtenFiles (download_images
        ⟨⟨true, OneOrMany.many []⟩, ⟨true, OneOrMany.many []⟩,
          [⟨11, 99, false, ("https://cdn.example/a.png"), ("https://cdn.example/ta.jpg")⟩,
           ⟨12, 98, true, ("https://cdn.example/b.png"), ("https://cdn.example/tb.jpg")⟩,
           ⟨13, 97, false, ("https://cdn.example/c.png"), ("https://cdn.example/tc.jpg")⟩]⟩
        Artwork.GRID none (some 1234) false ("false") ("any")
        (some (((2 : Nat) : Nat) : Int))).events).length =
      min 2 ([⟨11, 99, false, ("https://cdn.example/a.png"), ("https://cdn.example/ta.jpg")⟩,
         ⟨12, 98, true, ("https://cdn.example/b.png"), ("https://cdn.example/tb.jpg")⟩,
         ⟨13, 97, false, ("https://cdn.example/c.png"), ("https://cdn.example/tc.jpg")⟩] :
          List ImageRecord).length) ∧
    (writtenFiles (download_images
        ⟨⟨true, OneOrMany.many []⟩, ⟨true, OneOrMany.many []⟩,
          [⟨11, 99, false, ("https://cdn.example/a.png"), ("https://cdn.example/ta.jpg")⟩,
           ⟨12, 98, true, ("https://cdn.example/b.png"), ("https://cdn.example/tb.jpg")⟩,
           ⟨13, 97, false, ("https://cdn.example/c.png"), ("https://cdn.example/tc.jpg")⟩]⟩
        Artwork.GRID none (some 1234) false ("false") ("any") none).events =
      ([⟨11, 99, false, ("https://cdn.example/a.png"), ("https://cdn.example/ta.jpg")⟩,
        ⟨12, 98, true, ("https://cdn.example/b.png"), ("https://cdn.example/tb.jpg")⟩,
        ⟨13, 97, false, ("https://cdn.example/c.png"), ("https://cdn.example/tc.jpg")⟩] :
          List ImageRecord).map
        (imageFileName
          (("images/") ++ toString (1234 : Int) ++ ("/") ++ Artwork.GRID.value ++ ("/"))
          1234 false)) :=
  downloader_writes_first_limit
    ⟨⟨true, OneOrMany.many []⟩, ⟨true, OneOrMany.many []⟩,
      [⟨11, 99, false, ("https://cdn.example/a.png"), ("https://cdn.example/ta.jpg")⟩,
       ⟨12, 98, true, ("https://cdn.example/b.png"), ("https://cdn.example/tb.jpg")⟩,
       ⟨13, 97, false, ("https://cdn.example/c.png"), ("https://cdn.example/tc.jpg")⟩]⟩
    Artwork.GRID none 1234 false ("false") ("any") 2 (by decide) (by decide)

/-- Claim C10: a negative count m is not rejected: with a known id and valid
filters the run returns normally and writes the names of all returned records
except the last m, in server order, matching the Python slice semantics of
the subscript with a negative stop. -/
theorem negative_count_keeps_all_but_last :
    ∀ (env : Env) (a : Artwork) (q : Option (List String)) (gid : Int)
      (thumb : Bool) (nsfw types : String) (m : Nat),
    validStyle types = true → validNsfw nsfw = true → 0 < m →
    ((download_images env a q (some gid) thumb nsfw types
        (some (-((m : Nat) : Int)))).outcome = Except.ok ()) ∧
    (writtenFiles (download_images env a q (some gid) thumb nsfw types
        (some (-((m : Nat) : Int)))).events =
      (env.imagesData.take (env.imagesData.length - m)).map
        (imageFileName
          (("images/") ++ toString gid ++ ("/") ++ a.value ++ ("/"))
          gid thumb)) := by
  intro env a q gid thumb nsfw types m hs hn hm
  have h1 := fetchPhase_written env a gid none thumb nsfw types
    (some (-((m : Nat) : Int))) hs hn
  rw [pySliceTo_neg m hm] at h1
  constructor
  · rw [download_images_with_id]
    exact fetchPhase_ok env a gid none thumb nsfw types _ hs hn
  · rw [download_images_with_id, h1]
    rfl

/-- Witness for claim C10: count -1 on two records keeps only the first. -/
theorem negative_count_keeps_all_but_last_witness :
    ((download_images
        ⟨⟨true, OneOrMany.many []⟩, ⟨true, OneOrMany.many []⟩,
          [⟨11, 99, false, ("https://cdn.example/a.png"), ("https://cdn.example/ta.jpg")⟩,
           ⟨12, 98, true, ("https://cdn.example/b.png"), ("https://cdn.example/tb.jpg")⟩]⟩
        Artwork.LOGO none (some 24166) false ("false") ("static")
        (some (-(((1 : Nat) : Nat) : Int)))).outcome = Except.ok ()) ∧
    (writtenFiles (download_images
        ⟨⟨true, OneOrMany.many []⟩, ⟨true, OneOrMany.many []⟩,
          [⟨11, 99, false, ("https://cdn.example/a.png"), ("https://cdn.example/ta.jpg")⟩,
           ⟨12, 98, true, ("https://cdn.example/b.png"), ("https://cdn.example/tb.jpg")⟩]⟩
        Artwork.LOGO none (some 24166) false ("false") ("static")
        (some (-(((1 : Nat) : Nat) : Int)))).events =
      (([⟨11, 99, false, ("https://cdn.example/a.png"), ("https://cdn.example/ta.jpg")⟩,
         ⟨12, 98, true, ("https://cdn.example/b.png"), ("https://cdn.example/tb.jpg")⟩] :
           List ImageRecord).take
        (([⟨11, 99, false, ("https://cdn.example/a.png"), ("https://cdn.example/ta.jpg")⟩,
           ⟨12, 98, true, ("https://cdn.example/b.png"), ("https://cdn.example/tb.jpg")⟩] :
             List ImageRecord).length - 1)).map
        (imageFileName
          (("images/") ++ toString (24166 : Int) ++ ("/") ++
            Artwork.LOGO.value ++ ("/"))
          24166 false)) :=
  negative_count_keeps_all_but_last
    ⟨⟨true, OneOrMany.many []⟩, ⟨true, OneOrMany.many []⟩,
      [⟨11, 99, false, ("https://cdn.example/a.png"), ("https://cdn.example/ta.jpg")⟩,
       ⟨12, 98, true, ("https://cdn.example/b.png"), ("https://cdn.example/tb.jpg")⟩]⟩
    Artwork.LOGO none 24166 false ("false") ("static") 1
    (by decide) (by decide) (by decide)

/-- Claim C9 as stated is refuted by the display path: printing a freshly
fetched record overwrites its `types` field (a list of store names) with a
joined string, and its `release_date` with a formatted date string, so the
record that comes back from the printing operation differs from the one that
went in. -/
theorem print_data_mutates_record :
    (print_data ⟨1, ("Doom"), none, TVal.strs [("steam")], true⟩).map
        (fun p => p.1) ≠
      some ⟨1, ("Doom"), none, TVal.strs [("steam")], true⟩ := by
  decide

/-- Claim C9 (amended): every field other than `release_date` and `types` is
unchanged by the display path; in particular the id (the join key) and the
name (the directory-naming title) survive printing. -/
theorem print_data_preserves_other_fields :
    ∀ (g g2 : GameRecord) (out : String),
    print_data g = some (g2, out) →
    g2.id = g.id ∧ g2.name = g.name ∧ g2.verified = g.verified := by
  intro g g2 out h
  cases hrd : g.release_date with
  | none =>
    simp [print_data, hrd] at h
    rw [← h.1]
    exact ⟨rfl, rfl, rfl⟩
  | some v =>
    cases hv : gvalToInt v with
    | none => simp [print_data, hrd, hv] at h
    | some n =>
      simp [print_data, hrd, hv] at h
      rw [← h.1]
      exact ⟨rfl, rfl, rfl⟩

/-- Witness for the amended claim C9 at a concrete record. -/
theorem print_data_preserves_other_fields_witness :
    (⟨1, ("Doom"), some (GVal.str (".")), TVal.str ("steam"), true⟩ :
        GameRecord).id =
      (⟨1, ("Doom"), none, TVal.strs [("steam")], true⟩ : GameRecord).id ∧
    (⟨1, ("Doom"), some (GVal.str (".")), TVal.str ("steam"), true⟩ :
        GameRecord).name =
      (⟨1, ("Doom"), none, TVal.strs [("steam")], true⟩ : GameRecord).name ∧
    (⟨1, ("Doom"), some (GVal.str (".")), TVal.str ("steam"), true⟩ :
        GameRecord).verified =
      (⟨1, ("Doom"), none, TVal.strs [("steam")], true⟩ :
        GameRecord).verified :=
  print_data_preserves_other_fields
    ⟨1, ("Doom"), none, TVal.strs [("steam")], true⟩
    ⟨1, ("Doom"), some (GVal.str (".")), TVal.str ("steam"), true⟩
    (("    Title: Doom\n    Released: .\n    ID: 1\n    Stores: steam") ++
      ("\n    Verified: True    "))
    (by decide)

/-- The character class `[A-Za-z0-9_-]` named by the spec: ASCII word
characters plus the dash. -/
def specAllowed (c : Char) : Bool :=
  asciiWord c || c.toNat == 45

/-- Modelled from the spec: the collapse step of the slug of section 4.4,
with every run of characters outside `[A-Za-z0-9_-]` becoming one
underscore. -/
def specSlugAux : Bool → List Char → List Char
  | _, [] => []
  | inRun, c :: cs =>
    if specAllowed c then c :: specSlugAux false cs
    else if inRun then specSlugAux true cs
    else '_' :: specSlugAux true cs

/-- Modelled from the spec: the directory slug of section 4.4. -/
def specSlug (s : String) : String :=
  String.mk (specSlugAux false s.data)

/-- On the ASCII range the sanitizer class of the code and the spec class
coincide (they differ exactly on the non-ASCII word characters). -/
theorem pyAllowed_eq_specAllowed_of_ascii (c : Char) (h : c.toNat < 128) :
    pyAllowed c = specAllowed c := by
  have hl : latinExtra c.toNat = false := by
    have hne : ¬ latinExtra c.toNat = true := by
      unfold latinExtra
      simp only [Bool.or_eq_true, beq_iff_eq, Bool.and_eq_true,
        decide_eq_true_eq, bne_iff_ne, ne_eq]
      omega
    exact Bool.eq_false_iff.mpr hne
  unfold pyAllowed pyIsWord specAllowed
  rw [hl]
  simp

/-- On ASCII inputs the code slug and the spec slug agree, run flag and
all. -/
theorem slugAux_eq_specSlugAux :
    ∀ (cs : List Char) (flag : Bool), (∀ c ∈ cs, c.toNat < 128) →
    slugAux flag cs = specSlugAux flag cs := by
  intro cs
  induction cs with
  | nil => intro flag h; rfl
  | cons c cs ih =>
    intro flag h
    have hc : c.toNat < 128 := h c (List.mem_cons_self c cs)
    have hcs : ∀ x ∈ cs, x.toNat < 128 :=
      fun x hx => h x (List.mem_cons_of_mem c hx)
    unfold slugAux specSlugAux
    rw [pyAllowed_eq_specAllowed_of_ascii c hc]
    by_cases ha : specAllowed c = true
    · simp [ha, ih false hcs]
    · simp [ha, ih true hcs]

/-- Every character the spec slug emits is in `[A-Za-z0-9_-]`. -/
theorem specSlugAux_all_allowed :
    ∀ (cs : List Char) (flag : Bool) (c : Char),
    c ∈ specSlugAux flag cs → specAllowed c = true := by
  intro cs
  induction cs with
  | nil => intro flag c hc; simp [specSlugAux] at hc
  | cons x xs ih =>
    intro flag c hc
    unfold specSlugAux at hc
    by_cases ha : specAllowed x = true
    · rw [if_pos ha] at hc
      rcases List.mem_cons.1 hc with h | h
      · rw [h]; exact ha
      · exact ih false c h
    · rw [if_neg ha] at hc
      cases flag with
      | true => exact ih true c (by simpa using hc)
      | false =>
        rcases List.mem_cons.1 (by simpa using hc) with h | h
        · rw [h]; decide
        · exact ih true c h

/-- Claim C5 (amended to titles made of ASCII characters): on such titles the
slug the code computes is exactly the spec slug, collapsing every maximal run
outside `[A-Za-z0-9_-]` to one underscore, and every character of the result
lies in `[A-Za-z0-9_-]`. Outside ASCII the claim fails, see the
counterexample. -/
theorem slug_ascii_matches_spec :
    ∀ s : String, (∀ c ∈ s.data, c.toNat < 128) →
    slugify s = specSlug s ∧
    ∀ c ∈ (slugify s).data, specAllowed c = true := by
  intro s h
  have he := slugAux_eq_specSlugAux s.data false h
  constructor
  · unfold slugify specSlug
    rw [he]
  · intro c hc
    unfold slugify at hc
    rw [show (String.mk (slugAux false s.data)).data = slugAux false s.data
      from rfl, he] at hc
    exact specSlugAux_all_allowed s.data false c hc

/-- Witness for the amended claim C5 at the spec example title. -/
theorem slug_ascii_matches_spec_witness :
    slugify ("Half Life 2: Episode One!") =
      specSlug ("Half Life 2: Episode One!") ∧
    ∀ c ∈ (slugify ("Half Life 2: Episode One!")).data,
      specAllowed c = true :=
  slug_ascii_matches_spec ("Half Life 2: Episode One!") (by decide)

/-- Claim C5 fails as stated: the Python class `\w` is Unicode-aware, so the
non-ASCII letter U+00E9 passes the sanitizer untouched and the slug of that
one-letter title contains a character outside `[A-Za-z0-9_-]`. -/
theorem slug_keeps_latin1_letter :
    ((slugify (String.mk [Char.ofNat 233])).data.all specAllowed) = false := by
  decide
